import Mathlib

/-!
Verification development for the vscode-chrome-debug protocol adapter.

The development shallowly embeds the two source files:
  * `src/chromeDebugAdapter.ts` — the process launcher (`launch`, `disconnect`,
    `clearEverything`), embedded as pure functions over an explicit adapter state,
    with OS side effects (spawn, kill, delegation to the base class) reified as
    effect values.
  * the WebKit debug session file — `dispatchRequest`, `sendResponseAsync` and
    the `Logger` singleton, embedded as pure functions from a request together
    with the engine/proxy behaviour to the list of protocol responses sent.

JavaScript truthiness tests on optional strings (`if (args.userDataDir)` etc.)
are embedded via `strTruthy`, which is false for both `undefined` (`none`) and
the empty string; `args.port || 9222` is embedded with `0` falling back to the
default, as `0` is falsy in JavaScript.
-/

/-- JavaScript truthiness of an optional string: `undefined`/`null` and `""` are falsy. -/
def strTruthy : Option String → Bool
  | none => false
  | some s => !s.isEmpty

/-- The launch configuration consumed by `ChromeDebugAdapter.launch`
(`ILaunchRequestArgs`): executable override, port, extra runtime arguments,
user-data directory, file/url to open, attach address. -/
structure ILaunchRequestArgs where
  runtimeExecutable : Option String := none
  port : Option Nat := none
  runtimeArgs : Option (List String) := none
  userDataDir : Option String := none
  file : Option String := none
  url : Option String := none
  address : Option String := none
deriving DecidableEq, Repr

/-- Modelled from the spec: `coreUtils.pathToFileURL` (defined in the core
library, not under `src/`) converts a local file path to a `file://` URL; on an
absolute path `/a/b.html` it yields `file:///a/b.html`. -/
def pathToFileURL (path : String) : String :=
  "file://" ++ path

/-- The effective remote-debugging port: `args.port || 9222` (`0` and
`undefined` are falsy in JavaScript, so both fall back to the default). -/
def effectivePort (args : ILaunchRequestArgs) : Nat :=
  match args.port with
  | some p => if p == 0 then 9222 else p
  | none => 9222

/-- The launch URL chosen by `launch`: `args.file` converted to a `file://` URL
when `args.file` is truthy, else `args.url` when truthy, else none. -/
def chosenLaunchUrl (args : ILaunchRequestArgs) : Option String :=
  if strTruthy args.file then some (pathToFileURL (args.file.getD ""))
  else if strTruthy args.url then args.url
  else none

/-- The argument list built by `ChromeDebugAdapter.launch`, transcribed from the
sequence of `chromeArgs.push` calls in the source. -/
def launchArgv (args : ILaunchRequestArgs) : List String :=
  let chromeArgs : List String := ["--remote-debugging-port=" ++ toString (effectivePort args)]
  let chromeArgs := chromeArgs ++ ["--no-first-run", "--no-default-browser-check"]
  let chromeArgs := chromeArgs ++ (match args.runtimeArgs with
    | some ra => ra
    | none => [])
  let chromeArgs := chromeArgs ++ (match args.userDataDir with
    | some d => if d.isEmpty then [] else ["--user-data-dir=" ++ d]
    | none => [])
  match chosenLaunchUrl args with
  | some u => if u.isEmpty then chromeArgs else chromeArgs ++ [u]
  | none => chromeArgs

/-- Actions the spawned-process error observer can take on the session
(the callback registered with `this._chromeProc.on('error', ...)`). -/
inductive SessionAction where
  | logMsg (msg : String)
  | terminateSession
deriving DecidableEq, Repr

/-- The observer `launch` registers on the spawned handle: log the error, then
terminate the session. -/
def chromeErrorHandler (err : String) : List SessionAction :=
  [SessionAction.logMsg ("chrome error: " ++ err), SessionAction.terminateSession]

/-- A record of the spawn performed by `launch`: executable path, argv, the
spawn options (`detached: true`, `stdio: ['ignore']`, followed by `unref()`),
and the failure observer registered with `on('error', ...)`. -/
structure SpawnCall where
  path : String
  argv : List String
  detached : Bool
  stdinIgnored : Bool
  unrefCalled : Bool
  onError : String → List SessionAction

/-- Outcome of the pre-attach phase of `launch`: either the configuration error
returned when no executable is found (no process is spawned), or a spawn. -/
inductive LaunchOutcome where
  | configError (msg : String)
  | spawned (call : SpawnCall)

/-- The executable-resolution step `args.runtimeExecutable || utils.getBrowserPath()`;
`discovered` stands for the result of the platform discovery routine
`utils.getBrowserPath()` (its body lives in `utils.ts`, not under `src/`). -/
def resolveChromePath (discovered : Option String) (args : ILaunchRequestArgs) : Option String :=
  if strTruthy args.runtimeExecutable then args.runtimeExecutable else discovered

/-- The message of the configuration error produced when no executable is found. -/
def chromeNotFoundMsg : String :=
  "Can't find Chrome - install it or set the \"runtimeExecutable\" field in the launch config."

/-- Embeds `ChromeDebugAdapter.launch` up to (and including) the spawn: resolve the
executable, short-circuit with a rejected promise (`coreUtils.errP`) when none
is found, else build the argv and spawn detached/unreferenced. -/
def launch (discovered : Option String) (args : ILaunchRequestArgs) : LaunchOutcome :=
  match resolveChromePath discovered args with
  | none => LaunchOutcome.configError chromeNotFoundMsg
  | some p =>
    if p.isEmpty then LaunchOutcome.configError chromeNotFoundMsg
    else LaunchOutcome.spawned
      { path := p
        argv := launchArgv args
        detached := true
        stdinIgnored := true
        unrefCalled := true
        onError := chromeErrorHandler }

/-- The adapter's mutable state relevant to teardown: the stored child-process
handle `this._chromeProc` (`none` embeds JavaScript `null`/`undefined`;
a handle is identified by an abstract numeric id). -/
structure AdapterState where
  chromeProc : Option Nat
deriving DecidableEq, Repr

/-- Observable effects of `disconnect` / `clearEverything`: a kill signal sent
to a process handle, and delegation to the base-class methods. -/
inductive AdapterEffect where
  | kill (proc : Nat) (signal : String)
  | superDisconnect
  | superClearEverything
deriving DecidableEq, Repr

/-- Embeds `ChromeDebugAdapter.disconnect`: if a handle is held, send it SIGINT and
clear the handle; always delegate to `super.disconnect()` afterward. -/
def disconnect (s : AdapterState) : AdapterState × List AdapterEffect :=
  match s.chromeProc with
  | some p => ({ chromeProc := none }, [AdapterEffect.kill p "SIGINT", AdapterEffect.superDisconnect])
  | none => (s, [AdapterEffect.superDisconnect])

/-- Embeds `ChromeDebugAdapter.clearEverything`: null out the handle, then delegate to
`super.clearEverything()`; no signal is sent. -/
def clearEverything (_s : AdapterState) : AdapterState × List AdapterEffect :=
  ({ chromeProc := none }, [AdapterEffect.superClearEverything])

/-- A decoded protocol request: sequence/correlation id, command name, and an
argument payload (kept abstract as a string). -/
structure Request where
  seq : Nat
  command : String
  arguments : String := ""
deriving DecidableEq, Repr

/-- Classification attached to an error response by the base session
(`ErrorDestination`). -/
inductive ErrorDestination where
  | User
  | Telemetry
deriving DecidableEq, Repr

/-- A protocol response, parameterised by the body type; `errorCode`,
`errorArgs` and `errorDest` record the classification the base session's
`sendErrorResponse` applies on the error paths. -/
structure Response (β : Type) where
  request_seq : Nat
  command : String
  success : Bool
  message : Option String := none
  body : Option β := none
  errorCode : Option Nat := none
  errorArgs : Option String := none
  errorDest : Option ErrorDestination := none
deriving DecidableEq, Repr

/-- Modelled from the spec: the base protocol `Response` constructor
(`common/v8Protocol`, not under `src/`) constructs a fresh Response correlated
to the request — same sequence id and command, success initially true, no body. -/
def Response.ofRequest (β : Type) (request : Request) : Response β :=
  { request_seq := request.seq
    command := request.command
    success := true }

/-- Modelled from the spec: the base session's `sendErrorResponse`
(`common/debugSession`, not under `src/`) marks the response failed, records the
fixed error code, the message format, the format arguments (the further detail)
and the destination classification, and sends it once. The returned list is the
list of responses sent. -/
def sendErrorResponse (response : Response β) (code : Nat) (format : String)
    (args : Option String) (dest : ErrorDestination) : List (Response β) :=
  [{ response with
      success := false
      message := some format
      errorCode := some code
      errorArgs := args
      errorDest := some dest }]

/-- Outcome of the engine's future returned by the Adapter Proxy's dispatch:
resolution with a body, or rejection with an error whose string form
(`e.toString()`) is the carried string. -/
inductive PromiseOutcome (β : Type) where
  | resolved (body : β)
  | rejected (eStr : String)
deriving DecidableEq, Repr

/-- Behaviour of `this._adapterProxy.dispatchRequest(request)` as observed by
the session: either it throws synchronously (with the exception's `message`),
or it returns a future with some eventual outcome. -/
inductive DispatchBehavior (β : Type) where
  | throws (excMessage : String)
  | returns (outcome : PromiseOutcome β)
deriving DecidableEq, Repr

/-- The adapter-identifying tag prefixed to non-evaluate failure messages. -/
def adapterTag : String := "[webkit-debug-adapter] "

/-- Embeds `WebKitDebugSession.sendResponseAsync`: the pair of continuations attached
to the engine's future, as a function from the future's outcome to the list of
responses sent. On resolution the body is assigned and the response sent; on
rejection the failure is classified exactly as in the source. -/
def sendResponseAsync (request : Request) (response : Response β)
    (outcome : PromiseOutcome β) : List (Response β) :=
  match outcome with
  | PromiseOutcome.resolved body =>
    [{ response with body := some body }]
  | PromiseOutcome.rejected eStr =>
    if eStr == "unknowncommand" then
      sendErrorResponse response 1014 "Unrecognized request" none ErrorDestination.Telemetry
    else if request.command == "evaluate" then
      [{ response with message := some eStr, success := false }]
    else
      [{ response with message := some (adapterTag ++ eStr), success := false }]

/-- Embeds `WebKitDebugSession.dispatchRequest`: construct a fresh response correlated
to the request, hand the request to the adapter proxy inside a try/catch, and
either attach the `sendResponseAsync` continuations or — if the dispatch call
throws synchronously — send the fixed-code 1104 error response carrying the
exception's message, classified to telemetry. The result is the list of
responses sent for this request. -/
def dispatchRequest (request : Request) (behavior : DispatchBehavior β) : List (Response β) :=
  let response := Response.ofRequest β request
  match behavior with
  | DispatchBehavior.throws excMessage =>
    sendErrorResponse response 1104
      "Exception while processing request (exception: \x7b_exception\x7d)"
      (some excMessage) ErrorDestination.Telemetry
  | DispatchBehavior.returns outcome =>
    sendResponseAsync request response outcome

/-- A session processing a sequence of requests, each with its observed proxy
behaviour: the concatenated list of responses sent. Each request is dispatched
independently — a synchronous throw is caught inside `dispatchRequest`, so it
never escapes to abort the session. -/
def dispatchSequence (reqs : List (Request × DispatchBehavior β)) : List (Response β) :=
  match reqs with
  | [] => []
  | rb :: rest => dispatchRequest rb.1 rb.2 ++ dispatchSequence rest

/-- The `Logger` singleton instance state: whether the session runs in server
mode. -/
structure LoggerInstance where
  _isServer : Bool
deriving DecidableEq, Repr

/-- The `Logger` class statics: the `ALLOW_LOGGING` enable flag (set to `true`
in the source, meant to be `false` in packaged builds) and the singleton
reference `_logger` (initially unset). -/
structure LoggerStatics where
  ALLOW_LOGGING : Bool
  _logger : Option LoggerInstance
deriving DecidableEq, Repr

/-- Embeds `Logger.init(isServer)`: create the singleton with the given mode. The
periodic separator tick it also starts just invokes `Logger.log` and is covered
by the same suppression conditions. -/
def Logger.init (s : LoggerStatics) (isServer : Bool) : LoggerStatics :=
  { s with _logger := some { _isServer := isServer } }

/-- Embeds `Logger.log(msg)` followed by the instance `_log`: the list of console
writes produced by one invocation — a single write when the singleton exists,
is in server mode and `ALLOW_LOGGING` holds; none otherwise. -/
def Logger.logWrites (s : LoggerStatics) (msg : String) : List String :=
  match s._logger with
  | none => []
  | some l => if l._isServer && s.ALLOW_LOGGING then [msg] else []

/-- Console writes produced by any number of `Logger.log` invocations. -/
def Logger.logWritesMany (s : LoggerStatics) (msgs : List String) : List String :=
  match msgs with
  | [] => []
  | m :: rest => Logger.logWrites s m ++ Logger.logWritesMany s rest

/-- A `file://` URL produced by `pathToFileURL` is never the empty string. -/
theorem pathToFileURL_ne_empty (p : String) : (pathToFileURL p).isEmpty = false := by
  rw [Bool.eq_false_iff]
  intro h
  have h2 : pathToFileURL p = "" := (String.isEmpty_iff _).1 h
  have h3 := congrArg String.data h2
  rw [pathToFileURL, String.data_append] at h3
  simp at h3

/-- Whatever launch URL is chosen, it is a nonempty string. -/
theorem chosenLaunchUrl_isEmpty_false (args : ILaunchRequestArgs) (u : String)
    (h : chosenLaunchUrl args = some u) : u.isEmpty = false := by
  unfold chosenLaunchUrl at h
  split at h
  · cases h
    exact pathToFileURL_ne_empty _
  · split at h
    · next hurl =>
      rw [h] at hurl
      simpa [strTruthy] using hurl
    · cases h

/-- The argv decomposes as the port flag, the two fixed safety flags, the
caller's runtime arguments, the optional user-data-dir flag, and the optional
navigation argument, in that order. -/
theorem launchArgv_decomp (args : ILaunchRequestArgs) :
    launchArgv args
      = ("--remote-debugging-port=" ++ toString (effectivePort args))
        :: "--no-first-run" :: "--no-default-browser-check"
        :: (args.runtimeArgs.getD []
            ++ (match args.userDataDir with
                | some d => if d.isEmpty then [] else ["--user-data-dir=" ++ d]
                | none => [])
            ++ (chosenLaunchUrl args).toList) := by
  unfold launchArgv
  cases hurl : chosenLaunchUrl args with
  | none => cases args.runtimeArgs <;> cases args.userDataDir <;> simp
  | some u =>
    have hu := chosenLaunchUrl_isEmpty_false args u hurl
    cases args.runtimeArgs <;> cases args.userDataDir <;> simp [hu]

/-- C1: for every request handled by the session's dispatch routine and every
outcome of the engine's future (resolution with any body, or rejection with any
error string), exactly one response is sent, and it carries the request's
sequence id (and command), so it is correlated to that request and is never
sent more than once. -/
theorem claim_C1 {β : Type} (request : Request) (outcome : PromiseOutcome β) :
    (dispatchRequest request (DispatchBehavior.returns outcome)).length = 1
    ∧ ((dispatchRequest request (DispatchBehavior.returns outcome)).all
        fun r => r.request_seq == request.seq && r.command == request.command) = true := by
  cases outcome with
  | resolved body =>
    simp [dispatchRequest, sendResponseAsync, Response.ofRequest]
  | rejected eStr =>
    by_cases h1 : eStr = "unknowncommand"
    · simp [dispatchRequest, sendResponseAsync, sendErrorResponse, Response.ofRequest, h1]
    · by_cases h2 : request.command = "evaluate" <;>
        simp [dispatchRequest, sendResponseAsync, sendErrorResponse, Response.ofRequest, h1, h2]

/-- C2: classification of an engine rejection. If the error's string form is
exactly "unknowncommand", the fixed 1014 "Unrecognized request" error response
is sent, classified to telemetry and with no further detail. Any other
rejection produces a response with success set to false whose message is the
error text, verbatim for the "evaluate" command and prefixed with the
adapter-identifying tag for every other command. -/
theorem claim_C2 {β : Type} (request : Request) (eStr : String) :
    (eStr = "unknowncommand" →
      dispatchRequest (β := β) request (DispatchBehavior.returns (PromiseOutcome.rejected eStr))
        = [{ request_seq := request.seq, command := request.command, success := false,
             message := some "Unrecognized request", errorCode := some 1014,
             errorArgs := none, errorDest := some ErrorDestination.Telemetry }])
    ∧ (eStr ≠ "unknowncommand" → request.command = "evaluate" →
      dispatchRequest (β := β) request (DispatchBehavior.returns (PromiseOutcome.rejected eStr))
        = [{ request_seq := request.seq, command := request.command, success := false,
             message := some eStr }])
    ∧ (eStr ≠ "unknowncommand" → request.command ≠ "evaluate" →
      dispatchRequest (β := β) request (DispatchBehavior.returns (PromiseOutcome.rejected eStr))
        = [{ request_seq := request.seq, command := request.command, success := false,
             message := some (adapterTag ++ eStr) }]) := by
  refine ⟨fun h1 => ?_, fun h1 h2 => ?_, fun h1 h2 => ?_⟩
  · simp [dispatchRequest, sendResponseAsync, sendErrorResponse, Response.ofRequest, h1]
  · simp [dispatchRequest, sendResponseAsync, Response.ofRequest, h1, h2]
  · simp [dispatchRequest, sendResponseAsync, Response.ofRequest, h1, h2]

/-- Witness for C2 at concrete inputs: one per branch of the classification. -/
theorem claim_C2_witness :
    (dispatchRequest (β := Nat) { seq := 1, command := "evaluate" }
        (DispatchBehavior.returns (PromiseOutcome.rejected "unknowncommand"))
      = [{ request_seq := 1, command := "evaluate", success := false,
           message := some "Unrecognized request", errorCode := some 1014,
           errorArgs := none, errorDest := some ErrorDestination.Telemetry }])
    ∧ (dispatchRequest (β := Nat) { seq := 2, command := "evaluate" }
        (DispatchBehavior.returns (PromiseOutcome.rejected "boom"))
      = [{ request_seq := 2, command := "evaluate", success := false,
           message := some "boom" }])
    ∧ (dispatchRequest (β := Nat) { seq := 3, command := "scopes" }
        (DispatchBehavior.returns (PromiseOutcome.rejected "boom"))
      = [{ request_seq := 3, command := "scopes", success := false,
           message := some (adapterTag ++ "boom") }]) :=
  ⟨(claim_C2 { seq := 1, command := "evaluate" } "unknowncommand").1 rfl,
   (claim_C2 { seq := 2, command := "evaluate" } "boom").2.1 (by decide) rfl,
   (claim_C2 { seq := 3, command := "scopes" } "boom").2.2 (by decide) (by decide)⟩

/-- C3: when the adapter proxy's dispatch call throws synchronously, the
session sends exactly one error response with the fixed code 1104 ("Exception
while processing request"), carrying the exception's message as the format
argument and classified to the telemetry destination; the exception does not
escape the dispatch routine, so a session processing further requests after
the throwing one handles them exactly as it otherwise would. -/
theorem claim_C3 {β : Type} (request : Request) (excMessage : String)
    (rest : List (Request × DispatchBehavior β)) :
    dispatchRequest (β := β) request (DispatchBehavior.throws excMessage)
      = [{ request_seq := request.seq, command := request.command, success := false,
           message := some "Exception while processing request (exception: \x7b_exception\x7d)",
           errorCode := some 1104, errorArgs := some excMessage,
           errorDest := some ErrorDestination.Telemetry }]
    ∧ dispatchSequence ((request, DispatchBehavior.throws excMessage) :: rest)
      = [{ request_seq := request.seq, command := request.command, success := false,
           message := some "Exception while processing request (exception: \x7b_exception\x7d)",
           errorCode := some 1104, errorArgs := some excMessage,
           errorDest := some ErrorDestination.Telemetry }] ++ dispatchSequence rest := by
  constructor
  · simp [dispatchRequest, sendErrorResponse, Response.ofRequest]
  · simp [dispatchSequence, dispatchRequest, sendErrorResponse, Response.ofRequest]

/-- C4: the spawned process's argument list is built deterministically in
exactly the order port flag, --no-first-run, --no-default-browser-check, the
caller's runtime arguments verbatim, the optional --user-data-dir flag, and the
optional launch URL last; with neither file nor url no navigation argument is
appended; and the concrete configuration from the spec produces exactly the
listed argv. -/
theorem claim_C4 (args : ILaunchRequestArgs) :
    (launchArgv args
      = ("--remote-debugging-port=" ++ toString (effectivePort args))
        :: "--no-first-run" :: "--no-default-browser-check"
        :: (args.runtimeArgs.getD []
            ++ (match args.userDataDir with
                | some d => if d.isEmpty then [] else ["--user-data-dir=" ++ d]
                | none => [])
            ++ (chosenLaunchUrl args).toList))
    ∧ (args.file = none → args.url = none →
        launchArgv args
          = ("--remote-debugging-port=" ++ toString (effectivePort args))
            :: "--no-first-run" :: "--no-default-browser-check"
            :: (args.runtimeArgs.getD []
                ++ (match args.userDataDir with
                    | some d => if d.isEmpty then [] else ["--user-data-dir=" ++ d]
                    | none => [])))
    ∧ launchArgv { port := some 9000, runtimeArgs := some ["--foo"], userDataDir := some "/tmp/d", file := some "/a/b.html" }
        = ["--remote-debugging-port=9000", "--no-first-run", "--no-default-browser-check",
           "--foo", "--user-data-dir=/tmp/d", "file:///a/b.html"] := by
  refine ⟨launchArgv_decomp args, fun hf hu => ?_, ?_⟩
  · rw [launchArgv_decomp args]
    simp [chosenLaunchUrl, strTruthy, hf, hu]
  · rfl

/-- Witness for C4's neither-file-nor-url case at a concrete configuration. -/
theorem claim_C4_witness :
    launchArgv { port := some 9000, runtimeArgs := some ["--foo"], userDataDir := some "/tmp/d" }
      = ["--remote-debugging-port=9000", "--no-first-run", "--no-default-browser-check",
         "--foo", "--user-data-dir=/tmp/d"] := by
  have h :=
    (claim_C4 { port := some 9000, runtimeArgs := some ["--foo"], userDataDir := some "/tmp/d" }).2.1 rfl rfl
  rw [h]
  rfl

/-- C9: when a launch configuration supplies both a file and a url, the file
deterministically takes precedence — the navigation argument appended last is
the file path converted to a `file://` URL — and the supplied url is ignored:
the argv is the same as for the identical configuration without the url. -/
theorem claim_C9 (args : ILaunchRequestArgs) (f u : String)
    (hf : args.file = some f) (hfne : f ≠ "") (hu : args.url = some u) :
    chosenLaunchUrl args = some (pathToFileURL f)
    ∧ launchArgv args
      = ("--remote-debugging-port=" ++ toString (effectivePort args))
        :: "--no-first-run" :: "--no-default-browser-check"
        :: (args.runtimeArgs.getD []
            ++ (match args.userDataDir with
                | some d => if d.isEmpty then [] else ["--user-data-dir=" ++ d]
                | none => [])
            ++ [pathToFileURL f])
    ∧ launchArgv args = launchArgv { args with url := none } := by
  have hfe : f.isEmpty = false := by
    rw [Bool.eq_false_iff]
    intro h
    exact hfne ((String.isEmpty_iff f).1 h)
  obtain ⟨re, p, ra, udd, fl, uu, ad⟩ := args
  cases hf
  cases hu
  have hcu : chosenLaunchUrl ⟨re, p, ra, udd, some f, some u, ad⟩ = some (pathToFileURL f) := by
    simp [chosenLaunchUrl, strTruthy, hfe]
  have hcu2 : chosenLaunchUrl ⟨re, p, ra, udd, some f, none, ad⟩ = some (pathToFileURL f) := by
    simp [chosenLaunchUrl, strTruthy, hfe]
  refine ⟨hcu, ?_, ?_⟩
  · rw [launchArgv_decomp, hcu]
    rfl
  · rw [launchArgv_decomp, launchArgv_decomp, hcu, hcu2]
    rfl

/-- Witness for C9: a configuration supplying both a file and a url chooses the
file's `file://` URL. -/
theorem claim_C9_witness :
    chosenLaunchUrl { file := some "/a/b.html", url := some "http://example.com" }
      = some (pathToFileURL "/a/b.html") :=
  (claim_C9 { file := some "/a/b.html", url := some "http://example.com" }
    "/a/b.html" "http://example.com" rfl (by decide) rfl).1

/-- C6: with no executable-path override and the platform discovery routine
finding no executable, launch fails immediately with the configuration error
("Can't find Chrome ..."), and no process is spawned — the outcome is never a
spawn. -/
theorem claim_C6 (args : ILaunchRequestArgs) (h : args.runtimeExecutable = none) :
    launch none args = LaunchOutcome.configError chromeNotFoundMsg
    ∧ ∀ call, launch none args ≠ LaunchOutcome.spawned call := by
  have h1 : launch none args = LaunchOutcome.configError chromeNotFoundMsg := by
    simp [launch, resolveChromePath, strTruthy, h]
  refine ⟨h1, fun call hc => ?_⟩
  rw [h1] at hc
  cases hc

/-- Witness for C6 at the empty configuration. -/
theorem claim_C6_witness :
    launch none {} = LaunchOutcome.configError chromeNotFoundMsg :=
  (claim_C6 {} rfl).1

/-- C7: whatever error the spawned child process reports, the failure observer
registered at launch logs the error and then unconditionally terminates the
session; those two actions are the observer's entire behaviour, so nothing is
rethrown to the launch caller and no retry is attempted. -/
theorem claim_C7 (discovered : Option String) (args : ILaunchRequestArgs)
    (call : SpawnCall) (err : String)
    (h : launch discovered args = LaunchOutcome.spawned call) :
    call.onError err
      = [SessionAction.logMsg ("chrome error: " ++ err), SessionAction.terminateSession]
    ∧ SessionAction.terminateSession ∈ call.onError err
    ∧ ∀ a ∈ call.onError err,
        a = SessionAction.logMsg ("chrome error: " ++ err) ∨ a = SessionAction.terminateSession := by
  have hco : call.onError = chromeErrorHandler := by
    unfold launch at h
    cases hr : resolveChromePath discovered args with
    | none => rw [hr] at h; cases h
    | some p =>
      rw [hr] at h
      split at h
      · cases h
      · split at h
        · cases h
        · injection h with h2
          rw [← h2]
  rw [hco]
  refine ⟨rfl, by simp [chromeErrorHandler], ?_⟩
  intro a ha
  simp [chromeErrorHandler] at ha
  rcases ha with ha | ha
  · exact Or.inl ha
  · exact Or.inr ha

/-- Witness for C7: the observer registered by a successful concrete launch. -/
theorem claim_C7_witness :
    ({ path := "/usr/bin/chromium", argv := launchArgv {}, detached := true,
       stdinIgnored := true, unrefCalled := true,
       onError := chromeErrorHandler } : SpawnCall).onError "spawn ENOENT"
      = [SessionAction.logMsg ("chrome error: " ++ "spawn ENOENT"),
         SessionAction.terminateSession] :=
  (claim_C7 (some "/usr/bin/chromium") {}
    { path := "/usr/bin/chromium", argv := launchArgv {}, detached := true,
      stdinIgnored := true, unrefCalled := true, onError := chromeErrorHandler }
    "spawn ENOENT" rfl).1

/-- C5: disconnect is idempotent. One call leaves the handle cleared; when a
handle is held it sends exactly one SIGINT to that process and then delegates
to the base teardown, and when no handle is held (never launched, or already
disconnected) it only delegates; a second disconnect in a row therefore sends
no signal, produces no error, and leaves the handle cleared; in every case the
base teardown is the final effect. -/
theorem claim_C5 (s : AdapterState) :
    (disconnect s).1.chromeProc = none
    ∧ ((disconnect s).2 = match s.chromeProc with
        | some p => [AdapterEffect.kill p "SIGINT", AdapterEffect.superDisconnect]
        | none => [AdapterEffect.superDisconnect])
    ∧ (disconnect (disconnect s).1).1.chromeProc = none
    ∧ (disconnect (disconnect s).1).2 = [AdapterEffect.superDisconnect]
    ∧ (disconnect s).2.getLast? = some AdapterEffect.superDisconnect := by
  cases hc : s.chromeProc with
  | none =>
    cases s
    cases hc
    refine ⟨rfl, rfl, rfl, rfl, rfl⟩
  | some p =>
    cases s
    cases hc
    refine ⟨rfl, rfl, rfl, rfl, rfl⟩

/-- C10: clearEverything nulls the stored child-process handle without sending
any signal (its only effect is the delegation to the base clearEverything), and
a subsequent disconnect sends no kill signal and only delegates to the base
teardown. -/
theorem claim_C10 (s : AdapterState) :
    (clearEverything s).1.chromeProc = none
    ∧ (clearEverything s).2 = [AdapterEffect.superClearEverything]
    ∧ (disconnect (clearEverything s).1).2 = [AdapterEffect.superDisconnect] :=
  ⟨rfl, rfl, rfl⟩

/-- All console writes are suppressed when the singleton either does not exist,
is not in server mode, or the static enable flag is off. -/
theorem logWritesMany_suppressed (s : LoggerStatics) (msgs : List String)
    (h : ∀ l, s._logger = some l → (l._isServer && s.ALLOW_LOGGING) = false) :
    Logger.logWritesMany s msgs = [] := by
  induction msgs with
  | nil => rfl
  | cons m rest ih =>
    have hw : Logger.logWrites s m = [] := by
      unfold Logger.logWrites
      cases hl : s._logger with
      | none => rfl
      | some l => simp [h l hl]
    simp [Logger.logWritesMany, hw, ih]

/-- Both conditions of C8 in one boolean: the singleton exists, it was created
in server mode, and the static `ALLOW_LOGGING` flag is true. -/
def loggingEnabled (s : LoggerStatics) : Bool :=
  match s._logger with
  | some l => l._isServer && s.ALLOW_LOGGING
  | none => false

/-- C8: however many times `Logger.log` is invoked, it produces no console
writes unless the Logger was initialized (so the singleton exists) in server
mode and the static `ALLOW_LOGGING` flag is true; in particular a session
initialized not in server mode is fully suppressed. -/
theorem claim_C8 (s : LoggerStatics) (msgs : List String) :
    (Logger.logWritesMany s msgs ≠ [] → loggingEnabled s = true)
    ∧ (∀ s0 : LoggerStatics, Logger.logWritesMany (Logger.init s0 false) msgs = []) := by
  constructor
  · intro hne
    cases hl : s._logger with
    | none =>
      exact absurd (logWritesMany_suppressed s msgs (fun l h => by rw [hl] at h; cases h)) hne
    | some l =>
      cases hsv : l._isServer with
      | false =>
        refine absurd (logWritesMany_suppressed s msgs (fun l2 h2 => ?_)) hne
        rw [hl] at h2
        injection h2 with h3
        rw [← h3, hsv]
        rfl
      | true =>
        cases hal : s.ALLOW_LOGGING with
        | false =>
          refine absurd (logWritesMany_suppressed s msgs (fun l2 h2 => ?_)) hne
          rw [hal]
          simp
        | true => simp [loggingEnabled, hl, hsv, hal]
  · intro s0
    refine logWritesMany_suppressed _ msgs (fun l h => ?_)
    simp only [Logger.init] at h
    injection h with h2
    rw [← h2]
    rfl

/-- Witness for C8: when the singleton exists in server mode and the flag is
on, a write does occur, and the theorem recovers the enabling conditions. -/
theorem claim_C8_witness :
    loggingEnabled { ALLOW_LOGGING := true, _logger := some { _isServer := true } } = true :=
  (claim_C8 { ALLOW_LOGGING := true, _logger := some { _isServer := true } } ["hello"]).1
    (by simp [Logger.logWritesMany, Logger.logWrites])
